import Mathlib

/-!
Shallow embedding of the Focus pomodoro timer (DrEEjc7/Focus).

The main program is `src/js/app.js` (class `PomodoroTimer`); `src/unnamed/part_000`
is the service worker; `src/unnamed/part_001` and `src/unnamed/part_002` are
near-duplicate variants of the app.  Timer durations are JavaScript numbers
holding integers, modelled as `Int` where they can be decremented (`timeLeft`,
`totalTime`) and as `Nat` where they are only set from bounded positive values
(the minute settings and the daily counters).  The persistence store
(`localStorage`) is modelled as explicit fields of the state; the wall clock is
an explicit day-number parameter.
-/

/-- Timer phase: the JS strings 'focus' | 'short' | 'long' (`this.currentMode`). -/
inductive Mode where
  | focus
  | short
  | long
deriving DecidableEq, Repr

/-- Minutes per phase: `this.settings` with defaults focus 25, short 5, long 15. -/
structure Settings where
  focus : Nat
  short : Nat
  long : Nat
deriving DecidableEq, Repr

/-- Lookup of `this.settings[mode]`. -/
def Settings.get (cfg : Settings) : Mode → Nat
  | .focus => cfg.focus
  | .short => cfg.short
  | .long => cfg.long

/-- The persisted progress record written by `saveProgress` (app.js 1019-1031):
`{date, sessions, focusTime, streak}`.  The `toDateString` value is modelled as
a day number (`Int`), so that the `daysDiff` computation of `loadSettings`
(app.js 981-983) is `today - date`. -/
structure ProgressRecord where
  date : Int
  sessions : Nat
  focusTime : Nat
  streak : Nat
deriving DecidableEq, Repr

/-- The fields of `PomodoroTimer` that the session state machine reads and
writes (app.js 5-58), plus the persisted `pomodoroProgress` key (`store`). -/
structure TimerState where
  settings : Settings
  currentMode : Mode
  timeLeft : Int
  totalTime : Int
  isRunning : Bool
  currentSession : Nat
  sessionsToday : Nat
  totalFocusTime : Nat
  streak : Nat
  store : Option ProgressRecord
deriving DecidableEq, Repr

/-- Constructor state (app.js 6-32): default settings, focus mode,
`timeLeft = totalTime = 25*60`, paused, session 1, zero counters.  The
persisted store contents at startup are a parameter of `loadProgress`. -/
def initState : TimerState :=
  { settings := { focus := 25, short := 5, long := 15 }
    currentMode := .focus
    timeLeft := 25 * 60
    totalTime := 25 * 60
    isRunning := false
    currentSession := 1
    sessionsToday := 0
    totalFocusTime := 0
    streak := 0
    store := none }

/-- App.js `switchMode(mode)` (452-475): unconditionally sets the mode and
reloads `timeLeft` and `totalTime` from `settings[mode] * 60`.  (The running
guard of app.js lives at the mode-tab click listener, see `clickModeTab`;
the `part_002` variant puts the guard inside `switchMode` itself, see
`Variant2.switchMode`.) -/
def switchMode (m : Mode) (s : TimerState) : TimerState :=
  { s with currentMode := m
           timeLeft := (s.settings.get m : Int) * 60
           totalTime := (s.settings.get m : Int) * 60 }

/-- The mode-tab click handler (app.js 265-271): `if (!this.isRunning)
this.switchMode(e.target.dataset.mode)`. -/
def clickModeTab (m : Mode) (s : TimerState) : TimerState :=
  if s.isRunning then s else switchMode m s

/-- App.js `startTimer` (485-507): sets `isRunning = true` and installs the
1-second interval (the interval's body is `tick`). -/
def startTimer (s : TimerState) : TimerState :=
  { s with isRunning := true }

/-- App.js `pauseTimer` (509-518): clears the interval and `isRunning`. -/
def pauseTimer (s : TimerState) : TimerState :=
  { s with isRunning := false }

/-- App.js `toggleTimer` (477-483). -/
def toggleTimer (s : TimerState) : TimerState :=
  if s.isRunning then pauseTimer s else startTimer s

/-- App.js `resetTimer` (520-525): pause, then `timeLeft = totalTime`. -/
def resetTimer (s : TimerState) : TimerState :=
  let s' := pauseTimer s
  { s' with timeLeft := s'.totalTime }

/-- App.js `saveProgress` (1019-1031): overwrites the persisted
`pomodoroProgress` record with today's date and the in-memory counters. -/
def saveProgress (today : Int) (s : TimerState) : TimerState :=
  { s with store := some { date := today, sessions := s.sessionsToday,
                           focusTime := s.totalFocusTime, streak := s.streak } }

/-- App.js `completeTimer` (527-559): pause; from 'focus' increment
`sessionsToday` and add `settings.focus` to `totalFocusTime`, then either
(session 4) reset the index to 1 and switch to 'long', or increment the index
and switch to 'short'; from a break switch to 'focus'.  Then `saveProgress()`
and `startTimer()`. -/
def completeTimer (today : Int) (s : TimerState) : TimerState :=
  let s1 := pauseTimer s
  let s2 :=
    if s1.currentMode = .focus then
      let sF := { s1 with sessionsToday := s1.sessionsToday + 1
                          totalFocusTime := s1.totalFocusTime + s1.settings.focus }
      if sF.currentSession = 4 then
        switchMode .long { sF with currentSession := 1 }
      else
        switchMode .short { sF with currentSession := sF.currentSession + 1 }
    else
      switchMode .focus s1
  startTimer (saveProgress today s2)

/-- One firing of the interval callback (app.js 498-506): `timeLeft--`, then
if `timeLeft <= 0` invoke `completeTimer`. -/
def tick (today : Int) (s : TimerState) : TimerState :=
  let s' := { s with timeLeft := s.timeLeft - 1 }
  if s'.timeLeft ≤ 0 then completeTimer today s' else s'

/-- The per-field bounds checks shared by `updateSettings` (app.js 602-604)
and the `timerSettings` branch of `loadSettings` (app.js 944-946): a parsed
value is accepted only when focus ∈ [1,60], short ∈ [1,30], long ∈ [1,60],
each field individually; a rejected field keeps its previous value. -/
def applySettingsBounds (f sh l : Int) (cfg : Settings) : Settings :=
  let c1 := if 1 ≤ f ∧ f ≤ 60 then { cfg with focus := f.toNat } else cfg
  let c2 := if 1 ≤ sh ∧ sh ≤ 30 then { c1 with short := sh.toNat } else c1
  if 1 ≤ l ∧ l ≤ 60 then { c2 with long := l.toNat } else c2

/-- App.js `updateSettings` (597-611): apply the per-field bounds checks;
then, if not running, `switchMode(currentMode)` reloads the countdown. -/
def updateSettings (f sh l : Int) (st : TimerState) : TimerState :=
  let st' := { st with settings := applySettingsBounds f sh l st.settings }
  if st'.isRunning then st' else switchMode st'.currentMode st'

/-- The `timerSettings` part of `loadSettings` (app.js 941-953): if a stored
settings object exists, each field is accepted within the same bounds as
`updateSettings`; then `switchMode(currentMode)` is applied unconditionally
(line 953). -/
def loadStoredSettings (p : Option (Int × Int × Int)) (st : TimerState) : TimerState :=
  let st1 :=
    match p with
    | none => st
    | some (f, sh, l) => { st with settings := applySettingsBounds f sh l st.settings }
  switchMode st1.currentMode st1

/-- The `pomodoroProgress` part of `loadSettings` (app.js 971-992): if a
record exists, copy `sessions`/`focusTime` when its date is today, then
recompute the streak from `daysDiff = today - record.date`:
same day keeps the stored streak; exactly yesterday with `sessions > 0`
increments it; otherwise the streak is 1 if `sessionsToday > 0` else 0. -/
def loadProgress (today : Int) (rec : Option ProgressRecord) (s : TimerState) : TimerState :=
  match rec with
  | none => s
  | some p =>
    let s1 := if p.date = today
      then { s with sessionsToday := p.sessions, totalFocusTime := p.focusTime }
      else s
    let daysDiff : Int := today - p.date
    let streak' :=
      if daysDiff = 0 then p.streak
      else if daysDiff = 1 ∧ p.sessions > 0 then p.streak + 1
      else if s1.sessionsToday > 0 then 1 else 0
    { s1 with streak := streak' }

/-- App.js `updateProgress` (576-581) computes
`progress = timeLeft / totalTime` and renders the complementary fraction
`1 - progress` of the ring (`offset = circumference * (1 - progress)`).
This is the displayed progress fraction. -/
def progressFraction (t T : Int) : ℚ :=
  1 - (t : ℚ) / (T : ℚ)

namespace Variant2

/-- Variant `switchMode(mode)` of `part_002` (309-340): identical to the
app.js body but guarded by `if (this.isRunning) return`. -/
def switchMode (m : Mode) (s : TimerState) : TimerState :=
  if s.isRunning then s
  else
    { s with currentMode := m
             timeLeft := (s.settings.get m : Int) * 60
             totalTime := (s.settings.get m : Int) * 60 }

end Variant2

/-- The ambient-sound fields of `PomodoroTimer` together with the persisted
`ambientSound` localStorage key. -/
structure AmbientState where
  currentAmbient : String
  lastSelectedSound : String
  storedAmbient : Option String
deriving DecidableEq, Repr

/-- The state effect of `setAmbientSound(sound)` (app.js 632-669): after
stopping any current audio it sets `currentAmbient = sound` and persists
`localStorage.setItem('ambientSound', sound)`. -/
def setAmbientSound (sound : String) (a : AmbientState) : AmbientState :=
  { a with currentAmbient := sound, storedAmbient := some sound }

/-- The ambient part of `loadSettings` (app.js 963-969): read the persisted
selection (defaulting to 'none'), force `setAmbientSound('none')`, and keep
the previously saved value only in `lastSelectedSound`. -/
def loadAmbient (a : AmbientState) : AmbientState :=
  let savedAmbient := a.storedAmbient.getD "none"
  let a1 := setAmbientSound "none" a
  { a1 with lastSelectedSound := savedAmbient }

namespace SW

/-!
Embedding of the service worker `src/unnamed/part_000`.  Promises are modelled
by their settled outcome; a `Response` by its status line; the per-partition
caches by partial maps from URL to response.
-/

/-- Core shell file list `CORE_FILES` (part_000 11-17). -/
def CORE_FILES : List String :=
  ["./", "./index.html", "./css/main.css", "./js/app.js", "./manifest.json"]

/-- Ambient track list `AUDIO_FILES` (part_000 20-31). -/
def AUDIO_FILES : List String :=
  ["./audio/white.mp3", "./audio/rain.mp3", "./audio/lofi.mp3",
   "./audio/lofi_study.mp3", "./audio/lofi_movie.mp3", "./audio/forest.mp3",
   "./audio/brown.mp3", "./audio/beethoven.mp3", "./audio/bar.mp3",
   "./audio/75hz.mp3"]

/-- A fetch `Response`, reduced to the fields the worker inspects. -/
structure Response where
  status : Nat
  ok : Bool
deriving DecidableEq, Repr

/-- The settled outcome of a promise. -/
inductive POutcome where
  | resolved
  | rejected
deriving DecidableEq, Repr

/-- Outcome of the `install` event handler: the settled state of the promise
handed to `event.waitUntil`, whether `self.skipWaiting()` ran, which audio
files ended up cached, and whether the trailing catch logged
"Service Worker installation failed". -/
structure InstallResult where
  waitUntilPromise : POutcome
  skipWaitingCalled : Bool
  audioCached : List String
  loggedInstallError : Bool
deriving DecidableEq, Repr

/-- Core caching `cache.addAll(CORE_FILES)` (part_000 40-43): rejects iff fetching any
core file fails. -/
def coreCacheOutcome (fetchOk : String → Bool) : POutcome :=
  if CORE_FILES.all fetchOk then .resolved else .rejected

/-- The audio caching promise (part_000 46-55): every `cache.add(url)` has a
per-file `.catch` that converts failure into `null`, and the results are
combined with `Promise.allSettled`, so this promise always resolves. -/
def audioCacheOutcome (_fetchOk : String → Bool) : POutcome := .resolved

/-- The install event handler (part_000 34-64):
`Promise.all([core, audio]).then(skipWaiting).catch(log)` handed to
`event.waitUntil`.  `Promise.all` rejects iff a component rejects; `.then`
runs `skipWaiting` only on success; the trailing `.catch` logs the error and
returns a *resolved* promise. -/
def installEvent (fetchOk : String → Bool) : InstallResult :=
  let combined : POutcome :=
    if coreCacheOutcome fetchOk = .rejected ∨ audioCacheOutcome fetchOk = .rejected
    then .rejected else .resolved
  match combined with
  | .resolved =>
    { waitUntilPromise := .resolved, skipWaitingCalled := true,
      audioCached := AUDIO_FILES.filter fetchOk, loggedInstallError := false }
  | .rejected =>
    { waitUntilPromise := .resolved, skipWaitingCalled := false,
      audioCached := AUDIO_FILES.filter fetchOk, loggedInstallError := true }

/-- Per the service-worker lifecycle, the install attempt fails exactly when
the promise given to `event.waitUntil` rejects. -/
def installFailed (fetchOk : String → Bool) : Bool :=
  (installEvent fetchOk).waitUntilPromise = POutcome.rejected

/-- A same-origin flagged request as seen by the fetch listener. -/
structure Request where
  method : String
  sameOrigin : Bool
  pathname : String
deriving DecidableEq, Repr

/-- The four routing outcomes of the fetch listener (part_000 92-112). -/
inductive Strategy where
  | passThrough
  | audioCacheFirst
  | coreStaleWhileRevalidate
  | networkFirst
deriving DecidableEq, Repr

/-- Whether `hay` starts with `needle` (character lists). -/
def listStartsWith : List Char → List Char → Bool
  | [], _ => true
  | _ :: _, [] => false
  | n :: ns, h :: hs => n == h && listStartsWith ns hs

/-- Whether `needle` occurs inside `hay` (character lists). -/
def listContainsSub (needle : List Char) : List Char → Bool
  | [] => needle.isEmpty
  | h :: hs => listStartsWith needle (h :: hs) || listContainsSub needle hs

/-- The check `url.pathname.includes('/audio/')` — substring containment. -/
def isAudioPath (p : String) : Bool :=
  listContainsSub "/audio/".toList p.toList

/-- Strategy selection of the fetch listener (part_000 92-112): non-GET or
cross-origin requests pass through; paths containing '/audio/' are
cache-first; `CORE_FILES` members and '/' are stale-while-revalidate;
everything else is network-first. -/
def selectStrategy (r : Request) : Strategy :=
  if r.method ≠ "GET" ∨ r.sameOrigin = false then .passThrough
  else if isAudioPath r.pathname then .audioCacheFirst
  else if r.pathname ∈ CORE_FILES ∨ r.pathname = "/" then .coreStaleWhileRevalidate
  else .networkFirst

/-- Result of one fetch interception: the response returned, the audio cache
afterwards, and whether `fetch` hit the network. -/
structure FetchOutcome where
  response : Response
  cacheAfter : String → Option Response
  networkCalled : Bool

/-- Worker `handleAudioRequest` (part_000 115-145): cache-first.  A cache hit is
returned with no network request; on a miss the network response is returned
and, when `ok`, a copy is put into the audio cache; if the fetch throws, a
synthetic 404 "Audio file not available offline" response is returned. -/
def handleAudioRequest (url : String) (cache : String → Option Response)
    (net : Option Response) : FetchOutcome :=
  match cache url with
  | some r => { response := r, cacheAfter := cache, networkCalled := false }
  | none =>
    match net with
    | some nr =>
      if nr.ok then
        { response := nr
          cacheAfter := fun u => if u = url then some nr else cache u
          networkCalled := true }
      else
        { response := nr, cacheAfter := cache, networkCalled := true }
    | none =>
      { response := { status := 404, ok := false }, cacheAfter := cache,
        networkCalled := true }

end SW

/-- The settings bounds maintained by the constructor defaults and by every
bounds-checked settings write (app.js 602-604, 944-946). -/
def SettingsOK (cfg : Settings) : Prop :=
  1 ≤ cfg.focus ∧ cfg.focus ≤ 60 ∧ 1 ≤ cfg.short ∧ cfg.short ≤ 30 ∧
    1 ≤ cfg.long ∧ cfg.long ≤ 60

/-- The state invariant maintained by every operation of the session state
machine: the settings are within bounds and `1 ≤ timeLeft ≤ totalTime`. -/
def TimerInv (s : TimerState) : Prop :=
  SettingsOK s.settings ∧ 1 ≤ s.timeLeft ∧ s.timeLeft ≤ s.totalTime

/-- The states the app can reach: the constructor state, followed by any
sequence of the operations the UI and the startup path can trigger —
`loadSettings` (stored settings and stored progress), the start/pause toggle,
the visibility-change pause, reset, interval ticks while running, guarded
mode-tab clicks, and settings updates. -/
inductive Reachable : TimerState → Prop where
  | init : Reachable initState
  | loadSet : ∀ s p, Reachable s → Reachable (loadStoredSettings p s)
  | loadProg : ∀ s t rec, Reachable s → Reachable (loadProgress t rec s)
  | toggle : ∀ s, Reachable s → Reachable (toggleTimer s)
  | pause : ∀ s, Reachable s → Reachable (pauseTimer s)
  | reset : ∀ s, Reachable s → Reachable (resetTimer s)
  | tickStep : ∀ s t, Reachable s → s.isRunning = true → Reachable (tick t s)
  | clickTab : ∀ s m, Reachable s → Reachable (clickModeTab m s)
  | settingsStep : ∀ s f sh l, Reachable s → Reachable (updateSettings f sh l s)

/-- Concrete state: focus mode, session index 2 (used to instantiate
universally quantified theorems). -/
def exFocus2 : TimerState := { initState with currentSession := 2 }

/-- Concrete state: focus mode, session index 4. -/
def exFocus4 : TimerState := { initState with currentSession := 4 }

/-- Concrete state: short break, paused. -/
def exShortBreak : TimerState :=
  { initState with currentMode := .short, timeLeft := 5 * 60, totalTime := 5 * 60 }

/-- Concrete state: running focus timer. -/
def exRunning : TimerState := { initState with isRunning := true }

/-- Concrete state carrying a day's counters: 3 sessions, 75 focus minutes,
streak 2. -/
def exDayState : TimerState :=
  { initState with sessionsToday := 3, totalFocusTime := 75, streak := 2 }

/-- Concrete same-origin GET request for an audio path. -/
def exAudioReq : SW.Request :=
  { method := "GET", sameOrigin := true, pathname := "/audio/rain.mp3" }

/-- Concrete successful audio response. -/
def exOkResp : SW.Response := { status := 200, ok := true }

/-- Concrete audio cache holding exactly `./audio/rain.mp3`. -/
def exAudioCache : String → Option SW.Response :=
  fun u => if u = "./audio/rain.mp3" then some { status := 200, ok := true } else none

/-! ## Theorems -/

/-- C1: `completeTimer` invoked in focus mode increments `sessionsToday` by 1
and `totalFocusTime` by the focus-duration setting; with session index < 4 it
transitions to the short break and increments the index, with index 4 it
transitions to the long break and resets the index to 1; invoked from either
break it transitions to focus with the index unchanged. -/
theorem completeTimer_cycle (today : Int) (s : TimerState) :
    (s.currentMode = Mode.focus →
      (completeTimer today s).sessionsToday = s.sessionsToday + 1 ∧
      (completeTimer today s).totalFocusTime = s.totalFocusTime + s.settings.focus ∧
      (s.currentSession < 4 →
        (completeTimer today s).currentMode = Mode.short ∧
        (completeTimer today s).currentSession = s.currentSession + 1) ∧
      (s.currentSession = 4 →
        (completeTimer today s).currentMode = Mode.long ∧
        (completeTimer today s).currentSession = 1)) ∧
    ((s.currentMode = Mode.short ∨ s.currentMode = Mode.long) →
      (completeTimer today s).currentMode = Mode.focus ∧
      (completeTimer today s).currentSession = s.currentSession ∧
      (completeTimer today s).sessionsToday = s.sessionsToday ∧
      (completeTimer today s).totalFocusTime = s.totalFocusTime) := by
  constructor
  · intro hm
    by_cases h4 : s.currentSession = 4
    · refine ⟨?_, ?_, ?_, ?_⟩ <;>
        simp [completeTimer, pauseTimer, saveProgress, startTimer, switchMode, hm, h4]
    · refine ⟨?_, ?_, ?_, ?_⟩ <;>
        simp [completeTimer, pauseTimer, saveProgress, startTimer, switchMode, hm, h4]
  · intro hm
    rcases hm with h | h <;>
      simp [completeTimer, pauseTimer, saveProgress, startTimer, switchMode, h]

/-- Witness for C1: the three branches evaluated at concrete states
(focus with index 2, focus with index 4, short break). -/
theorem completeTimer_cycle_witness :
    ((completeTimer 0 exFocus2).currentMode = Mode.short ∧
      (completeTimer 0 exFocus2).currentSession = 3 ∧
      (completeTimer 0 exFocus2).sessionsToday = 1 ∧
      (completeTimer 0 exFocus2).totalFocusTime = 25) ∧
    ((completeTimer 0 exFocus4).currentMode = Mode.long ∧
      (completeTimer 0 exFocus4).currentSession = 1) ∧
    ((completeTimer 0 exShortBreak).currentMode = Mode.focus ∧
      (completeTimer 0 exShortBreak).currentSession = 1) := by
  have h2 := completeTimer_cycle 0 exFocus2
  have h4 := completeTimer_cycle 0 exFocus4
  have hb := completeTimer_cycle 0 exShortBreak
  refine ⟨⟨?_, ?_, ?_, ?_⟩, ⟨?_, ?_⟩, ⟨?_, ?_⟩⟩
  · exact ((h2.1 rfl).2.2.1 (by decide)).1
  · exact ((h2.1 rfl).2.2.1 (by decide)).2
  · exact (h2.1 rfl).1
  · exact (h2.1 rfl).2.1
  · exact ((h4.1 rfl).2.2.2 rfl).1
  · exact ((h4.1 rfl).2.2.2 rfl).2
  · exact (hb.2 (Or.inl rfl)).1
  · exact (hb.2 (Or.inl rfl)).2.1

/-- C9: after every phase completion, `completeTimer` persists a progress
record matching the post-transition counters and unconditionally restarts the
countdown: `isRunning` is true when it returns, in every mode. -/
theorem completeTimer_autostarts (today : Int) (s : TimerState) :
    (completeTimer today s).isRunning = true ∧
    (completeTimer today s).store =
      some { date := today,
             sessions := (completeTimer today s).sessionsToday,
             focusTime := (completeTimer today s).totalFocusTime,
             streak := (completeTimer today s).streak } := by
  constructor
  · simp [completeTimer, startTimer]
  · simp only [completeTimer, pauseTimer, saveProgress, startTimer, switchMode]

/-- Witness for C9: completing a short break leaves the timer running. -/
theorem completeTimer_autostarts_witness :
    (completeTimer 0 exShortBreak).isRunning = true := by
  exact (completeTimer_autostarts 0 exShortBreak).1

/-- C3: the user-facing mode switch is a no-op while the timer runs — both in
the `part_002` variant, whose `switchMode` carries the guard, and in app.js,
whose guard sits in the mode-tab click handler.  When not running, it sets the
mode, reloads `totalTime` from `settings[target] * 60`, resets `timeLeft` to
the new total, and leaves the session index and the daily counters alone. -/
theorem switchMode_guarded (m : Mode) (s : TimerState) :
    (s.isRunning = true → Variant2.switchMode m s = s ∧ clickModeTab m s = s) ∧
    (s.isRunning = false →
      Variant2.switchMode m s = switchMode m s ∧
      clickModeTab m s = switchMode m s ∧
      (switchMode m s).currentMode = m ∧
      (switchMode m s).totalTime = (s.settings.get m : Int) * 60 ∧
      (switchMode m s).timeLeft = (switchMode m s).totalTime ∧
      (switchMode m s).isRunning = s.isRunning ∧
      (switchMode m s).currentSession = s.currentSession ∧
      (switchMode m s).sessionsToday = s.sessionsToday ∧
      (switchMode m s).totalFocusTime = s.totalFocusTime ∧
      (switchMode m s).streak = s.streak) := by
  constructor
  · intro h
    constructor <;> simp [Variant2.switchMode, clickModeTab, h]
  · intro h
    refine ⟨?_, ?_, ?_, ?_, ?_, ?_, ?_, ?_, ?_, ?_⟩ <;>
      simp [Variant2.switchMode, clickModeTab, switchMode, h]

/-- Witness for C3: switching to the long break is ignored while running and
applies while paused. -/
theorem switchMode_guarded_witness :
    Variant2.switchMode Mode.long exRunning = exRunning ∧
    clickModeTab Mode.long exRunning = exRunning ∧
    (switchMode Mode.long initState).currentMode = Mode.long ∧
    (switchMode Mode.long initState).totalTime = 15 * 60 ∧
    (switchMode Mode.long initState).timeLeft = (switchMode Mode.long initState).totalTime ∧
    (switchMode Mode.long initState).currentSession = initState.currentSession := by
  have hrun := (switchMode_guarded Mode.long exRunning).1 rfl
  have hstop := (switchMode_guarded Mode.long initState).2 rfl
  exact ⟨hrun.1, hrun.2, hstop.2.2.1, hstop.2.2.2.1, hstop.2.2.2.2.1,
    hstop.2.2.2.2.2.2.1⟩

/-- C10: at load, `loadSettings` forces the ambient selection to 'none',
overwrites the persisted `ambientSound` key with 'none', and keeps the
previously saved selection only in the in-memory `lastSelectedSound`. -/
theorem loadAmbient_forces_silent (a : AmbientState) :
    (loadAmbient a).currentAmbient = "none" ∧
    (loadAmbient a).storedAmbient = some "none" ∧
    (loadAmbient a).lastSelectedSound = a.storedAmbient.getD "none" := by
  refine ⟨?_, ?_, ?_⟩ <;> simp [loadAmbient, setAmbientSound]

/-- Witness for C10: a persisted 'rain' selection is silenced and overwritten
but remembered in memory. -/
theorem loadAmbient_forces_silent_witness :
    (loadAmbient { currentAmbient := "rain", lastSelectedSound := "rain",
                   storedAmbient := some "rain" }).currentAmbient = "none" ∧
    (loadAmbient { currentAmbient := "rain", lastSelectedSound := "rain",
                   storedAmbient := some "rain" }).storedAmbient = some "none" ∧
    (loadAmbient { currentAmbient := "rain", lastSelectedSound := "rain",
                   storedAmbient := some "rain" }).lastSelectedSound = "rain" := by
  exact loadAmbient_forces_silent
    { currentAmbient := "rain", lastSelectedSound := "rain", storedAmbient := some "rain" }

/-- C6: saving a progress record and loading it on the same calendar day
reproduces `sessionsToday`, `totalFocusTime` and `streak` exactly, into any
state the load is applied to. -/
theorem progress_roundtrip (today : Int) (s sFresh : TimerState) :
    (loadProgress today (saveProgress today s).store sFresh).sessionsToday =
      s.sessionsToday ∧
    (loadProgress today (saveProgress today s).store sFresh).totalFocusTime =
      s.totalFocusTime ∧
    (loadProgress today (saveProgress today s).store sFresh).streak = s.streak := by
  refine ⟨?_, ?_, ?_⟩ <;> simp [saveProgress, loadProgress]

/-- Witness for C6: a record with 3 sessions, 75 minutes, streak 2 survives
the round-trip into a fresh constructor state. -/
theorem progress_roundtrip_witness :
    (loadProgress 7 (saveProgress 7 exDayState).store initState).sessionsToday = 3 ∧
    (loadProgress 7 (saveProgress 7 exDayState).store initState).totalFocusTime = 75 ∧
    (loadProgress 7 (saveProgress 7 exDayState).store initState).streak = 2 := by
  exact progress_roundtrip 7 exDayState initState

/-- C5: streak recomputation at load.  A record dated exactly yesterday with
at least one session increments the stored streak; a gap of two or more days
yields streak 1 if the in-memory day already has a session and 0 otherwise
(at startup the in-memory count is 0 unless the record is from today, so this
is 0); a record from today keeps its streak unchanged. -/
theorem loadProgress_streak (today : Int) (p : ProgressRecord) (s : TimerState) :
    (p.date = today - 1 → p.sessions > 0 →
      (loadProgress today (some p) s).streak = p.streak + 1) ∧
    (today - p.date ≥ 2 →
      (loadProgress today (some p) s).streak =
        (if s.sessionsToday > 0 then 1 else 0)) ∧
    (p.date = today →
      (loadProgress today (some p) s).streak = p.streak) := by
  refine ⟨?_, ?_, ?_⟩
  · intro hd hs
    have h0 : ¬(today - p.date = 0) := by omega
    have h1 : today - p.date = 1 := by omega
    have hne : ¬(p.date = today) := by omega
    simp [loadProgress, h0, h1, hs, hne]
  · intro hgap
    have h0 : ¬(today - p.date = 0) := by omega
    have h1 : ¬(today - p.date = 1) := by omega
    have hne : ¬(p.date = today) := by omega
    simp [loadProgress, h0, h1, hne]
  · intro hd
    have h0 : today - p.date = 0 := by omega
    simp [loadProgress, h0, hd]

/-- Witness for C5: loading day 10 against records from day 9 (2 sessions,
streak 4), day 7 (gap 3), and day 10 itself. -/
theorem loadProgress_streak_witness :
    (loadProgress 10 (some { date := 9, sessions := 2, focusTime := 50, streak := 4 })
      initState).streak = 5 ∧
    (loadProgress 10 (some { date := 7, sessions := 2, focusTime := 50, streak := 4 })
      initState).streak = 0 ∧
    (loadProgress 10 (some { date := 10, sessions := 2, focusTime := 50, streak := 4 })
      initState).streak = 4 := by
  refine ⟨?_, ?_, ?_⟩
  · exact (loadProgress_streak 10
      { date := 9, sessions := 2, focusTime := 50, streak := 4 } initState).1
      (by decide) (by decide)
  · have h := (loadProgress_streak 10
      { date := 7, sessions := 2, focusTime := 50, streak := 4 } initState).2.1
      (by decide)
    simpa [initState] using h
  · exact (loadProgress_streak 10
      { date := 10, sessions := 2, focusTime := 50, streak := 4 } initState).2.2 rfl

/-- C7: with the timer paused, `updateSettings` with all three fields within
bounds (focus 1-60, short 1-30, long 1-60) stores them and reloads both
`totalTime = settings[currentMode] * 60` and `timeLeft = totalTime`; a field
outside its bounds is individually rejected, leaving that stored setting
unchanged. -/
theorem updateSettings_bounds (f sh l : Int) (st : TimerState) :
    (st.isRunning = false → 1 ≤ f ∧ f ≤ 60 → 1 ≤ sh ∧ sh ≤ 30 → 1 ≤ l ∧ l ≤ 60 →
      (updateSettings f sh l st).settings =
        { focus := f.toNat, short := sh.toNat, long := l.toNat } ∧
      (updateSettings f sh l st).totalTime =
        ((updateSettings f sh l st).settings.get st.currentMode : Int) * 60 ∧
      (updateSettings f sh l st).timeLeft = (updateSettings f sh l st).totalTime) ∧
    (¬(1 ≤ f ∧ f ≤ 60) →
      (updateSettings f sh l st).settings.focus = st.settings.focus) ∧
    (¬(1 ≤ sh ∧ sh ≤ 30) →
      (updateSettings f sh l st).settings.short = st.settings.short) ∧
    (¬(1 ≤ l ∧ l ≤ 60) →
      (updateSettings f sh l st).settings.long = st.settings.long) := by
  refine ⟨?_, ?_, ?_, ?_⟩
  · intro hr hf hs hl
    refine ⟨?_, ?_, ?_⟩ <;>
      simp [updateSettings, applySettingsBounds, switchMode, Settings.get, hr, hf, hs, hl]
  · intro hf
    by_cases hr : st.isRunning <;>
      simp [updateSettings, applySettingsBounds, switchMode, hr, hf] <;>
      by_cases hs : 1 ≤ sh ∧ sh ≤ 30 <;> by_cases hl : 1 ≤ l ∧ l ≤ 60 <;>
      simp [hs, hl]
  · intro hs
    by_cases hr : st.isRunning <;>
      simp [updateSettings, applySettingsBounds, switchMode, hr, hs] <;>
      by_cases hf : 1 ≤ f ∧ f ≤ 60 <;> by_cases hl : 1 ≤ l ∧ l ≤ 60 <;>
      simp [hf, hl]
  · intro hl
    by_cases hr : st.isRunning <;>
      simp [updateSettings, applySettingsBounds, switchMode, hr, hl] <;>
      by_cases hf : 1 ≤ f ∧ f ≤ 60 <;> by_cases hs : 1 ≤ sh ∧ sh ≤ 30 <;>
      simp [hf, hs]

/-- Witness for C7: settings (30, 10, 20) are accepted while paused and the
countdown reloads; a focus value of 0 is rejected. -/
theorem updateSettings_bounds_witness :
    (updateSettings 30 10 20 initState).settings =
      { focus := 30, short := 10, long := 20 } ∧
    (updateSettings 30 10 20 initState).totalTime = 30 * 60 ∧
    (updateSettings 30 10 20 initState).timeLeft =
      (updateSettings 30 10 20 initState).totalTime ∧
    (updateSettings 0 10 20 initState).settings.focus = 25 := by
  have h := (updateSettings_bounds 30 10 20 initState).1 rfl
    (by decide) (by decide) (by decide)
  have h0 := (updateSettings_bounds 0 10 20 initState).2.1 (by decide)
  refine ⟨h.1, ?_, h.2.2, h0⟩
  have := h.2.1
  rw [this, h.1]
  rfl

/-- C2 (code evaluation): when fetching a core shell file fails during
install, the trailing catch of the handler (part_000 60-62) swallows the
rejection, so the promise handed to `event.waitUntil` resolves and the
install attempt does NOT fail — contrary to the worker's own
"installation failed" log message, which does fire; only `skipWaiting` is
skipped.  With all core files fetchable the install resolves and requests
immediate activation, and a failing audio file is merely dropped from the
audio cache without blocking installation. -/
theorem installEvent_core_failure_not_fatal :
    SW.installFailed (fun u => u != "./css/main.css") = false ∧
    (SW.installEvent (fun u => u != "./css/main.css")).skipWaitingCalled = false ∧
    (SW.installEvent (fun u => u != "./css/main.css")).loggedInstallError = true ∧
    SW.installFailed (fun _ => true) = false ∧
    (SW.installEvent (fun _ => true)).skipWaitingCalled = true ∧
    (SW.installEvent (fun _ => true)).audioCached = SW.AUDIO_FILES ∧
    SW.installFailed (fun u => u != "./audio/rain.mp3") = false ∧
    (SW.installEvent (fun u => u != "./audio/rain.mp3")).skipWaitingCalled = true ∧
    (SW.installEvent (fun u => u != "./audio/rain.mp3")).audioCached.length = 9 := by
  refine ⟨?_, ?_, ?_, ?_, ?_, ?_, ?_, ?_, ?_⟩ <;> rfl

/-- C8: audio fetches are cache-first.  A cached response is returned with no
network request and an unchanged cache; on a miss, a successful network
response is stored in the audio cache and returned; with no cache entry and a
network error, a synthetic 404 response is returned.  The fetch listener
routes every same-origin GET whose path contains '/audio/' to this handler. -/
theorem handleAudioRequest_cacheFirst (url : String)
    (cache : String → Option SW.Response) (net : Option SW.Response)
    (r nr : SW.Response) (req : SW.Request) :
    (cache url = some r →
      (SW.handleAudioRequest url cache net).response = r ∧
      (SW.handleAudioRequest url cache net).networkCalled = false ∧
      (SW.handleAudioRequest url cache net).cacheAfter = cache) ∧
    (cache url = none → net = some nr → nr.ok = true →
      (SW.handleAudioRequest url cache net).response = nr ∧
      (SW.handleAudioRequest url cache net).cacheAfter url = some nr ∧
      (SW.handleAudioRequest url cache net).networkCalled = true) ∧
    (cache url = none → net = none →
      (SW.handleAudioRequest url cache net).response = { status := 404, ok := false } ∧
      (SW.handleAudioRequest url cache net).cacheAfter = cache) ∧
    (req.method = "GET" → req.sameOrigin = true → SW.isAudioPath req.pathname = true →
      SW.selectStrategy req = SW.Strategy.audioCacheFirst) := by
  refine ⟨?_, ?_, ?_, ?_⟩
  · intro hc
    refine ⟨?_, ?_, ?_⟩ <;> simp [SW.handleAudioRequest, hc]
  · intro hc hn hok
    subst hn
    refine ⟨?_, ?_, ?_⟩ <;> simp [SW.handleAudioRequest, hc, hok]
  · intro hc hn
    subst hn
    refine ⟨?_, ?_⟩ <;> simp [SW.handleAudioRequest, hc]
  · intro hm hs ha
    simp [SW.selectStrategy, hm, hs, ha]

/-- Witness for C8: a cached rain track is served without the network; a miss
on the forest track caches the network copy; with no cache and no network the
synthetic 404 is served; and '/audio/rain.mp3' routes to the audio
strategy. -/
theorem handleAudioRequest_cacheFirst_witness :
    (SW.handleAudioRequest "./audio/rain.mp3" exAudioCache none).response = exOkResp ∧
    (SW.handleAudioRequest "./audio/rain.mp3" exAudioCache none).networkCalled = false ∧
    (SW.handleAudioRequest "./audio/forest.mp3" exAudioCache
      (some exOkResp)).cacheAfter "./audio/forest.mp3" = some exOkResp ∧
    (SW.handleAudioRequest "./audio/forest.mp3" exAudioCache none).response =
      { status := 404, ok := false } ∧
    SW.selectStrategy exAudioReq = SW.Strategy.audioCacheFirst := by
  refine ⟨?_, ?_, ?_, ?_, ?_⟩
  · exact ((handleAudioRequest_cacheFirst "./audio/rain.mp3" exAudioCache none
      exOkResp exOkResp exAudioReq).1 (by rfl)).1
  · exact ((handleAudioRequest_cacheFirst "./audio/rain.mp3" exAudioCache none
      exOkResp exOkResp exAudioReq).1 (by rfl)).2.1
  · exact ((handleAudioRequest_cacheFirst "./audio/forest.mp3" exAudioCache
      (some exOkResp) exOkResp exOkResp exAudioReq).2.1 (by rfl) rfl rfl).2.1
  · exact ((handleAudioRequest_cacheFirst "./audio/forest.mp3" exAudioCache none
      exOkResp exOkResp exAudioReq).2.2.1 (by rfl) rfl).1
  · exact (handleAudioRequest_cacheFirst "x" exAudioCache none
      exOkResp exOkResp exAudioReq).2.2.2 rfl rfl (by rfl)

/-- Within-bounds settings give a positive duration for every mode. -/
theorem settingsGet_pos {cfg : Settings} (h : SettingsOK cfg) (m : Mode) :
    1 ≤ cfg.get m := by
  obtain ⟨h1, h2, h3, h4, h5, h6⟩ := h
  cases m <;> simp [Settings.get] <;> omega

/-- The per-field bounds checks preserve `SettingsOK`. -/
theorem settingsOK_apply {cfg : Settings} (h : SettingsOK cfg) (f sh l : Int) :
    SettingsOK (applySettingsBounds f sh l cfg) := by
  obtain ⟨h1, h2, h3, h4, h5, h6⟩ := h
  unfold applySettingsBounds
  split_ifs <;> refine ⟨?_, ?_, ?_, ?_, ?_, ?_⟩ <;> simp <;> omega

/-- Switching modes re-establishes the invariant from in-bounds settings. -/
theorem timerInv_switchMode {s : TimerState} (h : SettingsOK s.settings) (m : Mode) :
    TimerInv (switchMode m s) := by
  have hg := settingsGet_pos h m
  have hg' : (1 : Int) ≤ (s.settings.get m : Int) := by exact_mod_cast hg
  exact ⟨h, by simp [switchMode]; omega, le_refl _⟩

/-- Completion re-establishes the invariant from in-bounds settings. -/
theorem timerInv_completeTimer {s : TimerState} (h : SettingsOK s.settings) (today : Int) :
    TimerInv (completeTimer today s) := by
  simp only [completeTimer]
  split_ifs with hm h4
  · exact timerInv_switchMode h Mode.long
  · exact timerInv_switchMode h Mode.short
  · exact timerInv_switchMode h Mode.focus

/-- Every reachable state satisfies the invariant. -/
theorem reachable_timerInv {s : TimerState} (h : Reachable s) : TimerInv s := by
  induction h with
  | init =>
    refine ⟨⟨?_, ?_, ?_, ?_, ?_, ?_⟩, ?_, ?_⟩ <;> norm_num [initState]
  | loadSet s p _ ih =>
    obtain ⟨hcfg, _, _⟩ := ih
    rcases p with _ | ⟨f, sh, l⟩
    · exact timerInv_switchMode hcfg _
    · exact timerInv_switchMode (settingsOK_apply hcfg f sh l) _
  | loadProg s t rec _ ih =>
    obtain ⟨hcfg, h1, h2⟩ := ih
    rcases rec with _ | p
    · exact ⟨hcfg, h1, h2⟩
    · by_cases hd : p.date = t <;> simp [loadProgress, hd] <;> exact ⟨hcfg, h1, h2⟩
  | toggle s _ ih =>
    obtain ⟨hcfg, h1, h2⟩ := ih
    unfold toggleTimer startTimer pauseTimer
    split_ifs <;> exact ⟨hcfg, h1, h2⟩
  | pause s _ ih =>
    obtain ⟨hcfg, h1, h2⟩ := ih
    exact ⟨hcfg, h1, h2⟩
  | reset s _ ih =>
    obtain ⟨hcfg, h1, h2⟩ := ih
    exact ⟨hcfg, by simp [resetTimer, pauseTimer]; omega, le_refl _⟩
  | tickStep s t _ _ ih =>
    obtain ⟨hcfg, h1, h2⟩ := ih
    simp only [tick]
    split_ifs with hle
    · exact timerInv_completeTimer hcfg t
    · exact ⟨hcfg, by simp; omega, by simp; omega⟩
  | clickTab s m _ ih =>
    obtain ⟨hcfg, h1, h2⟩ := ih
    unfold clickModeTab
    split_ifs
    · exact ⟨hcfg, h1, h2⟩
    · exact timerInv_switchMode hcfg m
  | settingsStep s f sh l _ ih =>
    obtain ⟨hcfg, h1, h2⟩ := ih
    simp only [updateSettings]
    split_ifs
    · exact ⟨settingsOK_apply hcfg f sh l, h1, h2⟩
    · exact timerInv_switchMode (settingsOK_apply hcfg f sh l) _

/-- The fraction `1 - t/T` lies in `[0,1]` whenever `0 ≤ t ≤ T` and `T` is positive. -/
theorem progressFraction_bounds {t T : Int} (h0 : 0 ≤ t) (h1 : t ≤ T) (h2 : 1 ≤ T) :
    0 ≤ progressFraction t T ∧ progressFraction t T ≤ 1 := by
  have hT : (0 : ℚ) < (T : ℚ) := by exact_mod_cast lt_of_lt_of_le Int.zero_lt_one h2
  have ht : (0 : ℚ) ≤ (t : ℚ) := by exact_mod_cast h0
  have htT : (t : ℚ) ≤ (T : ℚ) := by exact_mod_cast h1
  unfold progressFraction
  constructor
  · have hd : (t : ℚ) / (T : ℚ) ≤ 1 := (div_le_one hT).mpr htT
    linarith
  · have hd : 0 ≤ (t : ℚ) / (T : ℚ) := div_nonneg ht (le_of_lt hT)
    linarith

/-- C4: for every reachable state, the progress fraction handed to the ring
display equals `1 - timeLeft/totalTime` and lies in `[0,1]`; this also covers
the intermediate value displayed mid-tick (after `timeLeft--`, before the
completion check) while the timer runs. -/
theorem progressFraction_in_unit (s : TimerState) (h : Reachable s) :
    (progressFraction s.timeLeft s.totalTime =
        1 - (s.timeLeft : ℚ) / (s.totalTime : ℚ) ∧
      0 ≤ progressFraction s.timeLeft s.totalTime ∧
      progressFraction s.timeLeft s.totalTime ≤ 1) ∧
    (s.isRunning = true →
      0 ≤ progressFraction (s.timeLeft - 1) s.totalTime ∧
      progressFraction (s.timeLeft - 1) s.totalTime ≤ 1) := by
  obtain ⟨hcfg, h1, h2⟩ := reachable_timerInv h
  constructor
  · exact ⟨rfl, progressFraction_bounds (by omega) h2 (by omega)⟩
  · intro _
    exact progressFraction_bounds (t := s.timeLeft - 1) (by omega) (by omega) (by omega)

/-- Witness for C4: the constructor state displays fraction 0. -/
theorem progressFraction_in_unit_witness :
    0 ≤ progressFraction initState.timeLeft initState.totalTime ∧
    progressFraction initState.timeLeft initState.totalTime ≤ 1 := by
  exact (progressFraction_in_unit initState Reachable.init).1.2
